import Mathlib

/-
Verification of the Session & Assessment Engine of the mock-interview
backend (src/main.py) against its natural-language specification.

Modelling conventions:
* Python strings are Lean `String`s; `str.strip()` is `pyStrip`, which
  removes Python's whitespace characters (space, tab, newline, carriage
  return, vertical tab, form feed) from both ends.
* Machine integers are `Nat`; Python `//` on non-negative ints is `Nat`
  division.
* The random number generator is modelled as a stream `Nat → Nat`
  together with a position: each primitive draw reads one stream value.
  `random.choice(pool)` at position `p` picks index `stream p % pool.length`
  (uniform choice over indices); `random.choices(alphabet, k=10)` reads the
  next 10 stream values, each reduced mod 36 to index the alphabet;
  `random.randint(a, b)` reads one value `n` and yields `a + n % (b-a+1)`.
  Every value in the stated ranges is reachable, and nothing else is, so
  properties quantified over all streams are exactly the properties that
  hold for every possible random outcome.
* The database handle `db` (from `database.py`, an external collaborator)
  is modelled by a Boolean `dbPresent`; each route returns its response
  value paired with the list of documents it would insert.
-/

namespace MockInterview

/-- Python whitespace for `str.strip()`: space, tab, newline, carriage
return, vertical tab (0x0b), form feed (0x0c). -/
def pyIsSpace (c : Char) : Bool :=
  c = ' ' || c = '\t' || c = '\n' || c = '\r' || c = Char.ofNat 11 || c = Char.ofNat 12

/-- Python `str.strip()`: drop leading and trailing whitespace. -/
def pyStrip (s : String) : String :=
  String.mk (((s.data.dropWhile pyIsSpace).reverse.dropWhile pyIsSpace).reverse)

/-- The alphabet `string.ascii_lowercase + string.digits` used for
identifier suffixes (36 characters). -/
def idAlphabet : List Char := "abcdefghijklmnopqrstuvwxyz0123456789".data

/-- The 10 random characters drawn by `random.choices(alphabet, k=10)`
starting at stream position `pos`. -/
def idSuffix (stream : Nat → Nat) (pos : Nat) : List Char :=
  (List.range 10).map (fun i => idAlphabet.getD (stream (pos + i) % 36) 'a')

/-- `_make_id(prefix)` from src/main.py line 57: a fixed prefix, an
underscore, and 10 random alphanumeric characters. -/
def _make_id (pre : String) (stream : Nat → Nat) (pos : Nat) : String :=
  pre ++ "_" ++ String.mk (idSuffix stream pos)

/-- `QUESTIONS_BANK` from src/main.py lines 41-54: difficulty level to
(prompt, ideal answer) pairs, as an association list (Python dict). -/
def QUESTIONS_BANK : List (String × List (String × String)) :=
  [ ("Easy",
      [ ("Explain the difference between HTTP and HTTPS.",
         "HTTPS is HTTP over TLS providing encryption, integrity, and authentication."),
        ("What is a REST API?",
         "An architectural style using stateless communication over HTTP with resources identified by URIs.") ]),
    ("Intermediate",
      [ ("Describe how you would design a URL shortener.",
         "Use hash/id mapping, datastore, caching, redirect service, rate limiting, and analytics."),
        ("Explain CAP theorem.",
         "In distributed systems you can only have two of Consistency, Availability, and Partition tolerance.") ]),
    ("Advanced",
      [ ("How does a garbage collector work in managed runtimes?",
         "It tracks object reachability, reclaims unreachable memory via algorithms like mark-sweep, generational GC."),
        ("What strategies would you use to scale a write-heavy database?",
         "Sharding, write queues, batching, eventual consistency, appropriate indexes, partitioning.") ]) ]

/-- Python `QUESTIONS_BANK.get(d, [])`: dict lookup with default `[]`. -/
def bankGet (d : String) : List (String × String) :=
  match QUESTIONS_BANK.find? (fun p => p.1 = d) with
  | some p => p.2
  | none => []

/-- A drawn Question (src/main.py lines 71-76). -/
structure Question where
  id : String
  text : String
  difficulty : String
  correct_answer : String
deriving Repr, DecidableEq

/-- The generic fallback entry (src/main.py line 69), tagged with the
originally requested difficulty. -/
def fallbackEntry (difficulty : String) : String × String × String :=
  ("Tell me about yourself.",
   "Give a concise summary of your background, achievements, and goals.",
   difficulty)

/-- The local `pool` built by `_pick_question` (src/main.py lines 62-67):
for Mixed, the union of the three levels, each entry tagged with its
source level; otherwise the entries under the requested level tagged with
it. -/
def pickPool (difficulty : String) : List (String × String × String) :=
  if difficulty = "Mixed" then
    ((bankGet "Easy").map (fun p => (p.1, p.2, "Easy"))) ++
    ((bankGet "Intermediate").map (fun p => (p.1, p.2, "Intermediate"))) ++
    ((bankGet "Advanced").map (fun p => (p.1, p.2, "Advanced")))
  else
    (bankGet difficulty).map (fun p => (p.1, p.2, difficulty))

/-- The pool after the empty-pool fallback (src/main.py lines 68-69). -/
def pickPool2 (difficulty : String) : List (String × String × String) :=
  if (pickPool difficulty).isEmpty then [fallbackEntry difficulty]
  else pickPool difficulty

/-- `_pick_question(difficulty)` from src/main.py lines 61-76.
`random.choice` reads stream position `pos` (picking index
`stream pos % pool.length`, the pool being non-empty); `_make_id("q")`
then reads positions `pos+1 .. pos+10`. -/
def _pick_question (difficulty : String) (stream : Nat → Nat) (pos : Nat) : Question :=
  let chosen := (pickPool2 difficulty).getD
      (stream pos % (pickPool2 difficulty).length) (fallbackEntry difficulty)
  { id := _make_id "q" stream (pos + 1),
    text := chosen.1,
    difficulty := chosen.2.2,
    correct_answer := chosen.2.1 }

/-- Request body of POST /api/text/answer (src/main.py lines 34-37). -/
structure TextAnswer where
  session_id : String
  question_id : String
  answer : String
deriving Repr, DecidableEq

/-- The feedback record built by `submit_text_answer`
(src/main.py lines 144-150). -/
structure Feedback where
  correct : Bool
  grammar_fixes : String
  content_score : Nat
  correct_answer : String
  next_available : Bool
deriving Repr, DecidableEq

/-- A document inserted into the `response` collection
(src/main.py lines 152-158). -/
structure ResponseDoc where
  session_id : String
  question_id : String
  answer : String
  feedback : Feedback
deriving Repr, DecidableEq

/-- `submit_text_answer(payload)` from src/main.py lines 138-159:
scores the trimmed answer, builds the feedback, and (when the store is
present) inserts a response document.  Returns the feedback together
with the list of inserted documents. -/
def submit_text_answer (dbPresent : Bool) (payload : TextAnswer) :
    Feedback × List ResponseDoc :=
  let answer_len := (pyStrip payload.answer).length
  let content_score := max 30 (min 100 (answer_len / 5 + 40))
  let correct := decide (60 < content_score)
  let feedback : Feedback :=
    { correct := correct,
      grammar_fixes := "Capitalize proper nouns. Keep sentences concise.",
      content_score := content_score,
      correct_answer := "Sample ideal answer with structured points and examples.",
      next_available := true }
  (feedback,
   if dbPresent then
     [{ session_id := payload.session_id,
        question_id := payload.question_id,
        answer := payload.answer,
        feedback := feedback }]
   else [])

/-- Request body of POST /api/session (src/main.py lines 25-31), with
`mode` and `difficulty` as raw strings so that the `Literal` validation
can be modelled explicitly. -/
structure SessionCreate where
  mode : String
  job_role : String
  experience : String
  company : Option String
  difficulty : String
  resume_text : Option String
deriving Repr, DecidableEq

/-- The closed set `Literal["text", "voice"]`. -/
def validModes : List String := ["text", "voice"]

/-- The closed set `Literal["Easy", "Intermediate", "Advanced", "Mixed"]`. -/
def validDifficulties : List String := ["Easy", "Intermediate", "Advanced", "Mixed"]

/-- Pydantic validation of `SessionCreate`: `mode` and `difficulty` must
lie in their `Literal` sets; anything else is rejected before the route
body runs, never coerced. -/
def validateSessionCreate (r : SessionCreate) : Except String SessionCreate :=
  if r.mode ∈ validModes then
    if r.difficulty ∈ validDifficulties then
      Except.ok r
    else
      Except.error "difficulty: input should be Easy, Intermediate, Advanced or Mixed"
  else
    Except.error "mode: input should be text or voice"

/-- Progress record: current round and total rounds. -/
structure Progress where
  current : Nat
  total : Nat
deriving Repr, DecidableEq

/-- A document inserted into the `session` collection
(src/main.py lines 105-117). -/
structure SessionDoc where
  _id : String
  mode : String
  job_role : String
  experience : String
  company : Option String
  difficulty : String
  resume_text : Option String
  paid : Bool
  progress : Progress
deriving Repr, DecidableEq

/-- `create_session(payload)` from src/main.py lines 102-122, preceded by
pydantic validation of the request body.  On success it returns the
`\x7bsession_id, progress\x7d` response and the list of inserted session
documents (empty when the store is absent). -/
def create_session (dbPresent : Bool) (r : SessionCreate) (stream : Nat → Nat) (pos : Nat) :
    Except String ((String × Progress) × List SessionDoc) :=
  match validateSessionCreate r with
  | Except.error e => Except.error e
  | Except.ok payload =>
    let session_id := _make_id "sess" stream pos
    let doc : SessionDoc :=
      { _id := session_id,
        mode := payload.mode,
        job_role := payload.job_role,
        experience := payload.experience,
        company := payload.company,
        difficulty := payload.difficulty,
        resume_text := payload.resume_text,
        paid := true,
        progress := { current := 0, total := 5 } }
    if dbPresent then
      Except.ok ((session_id, doc.progress), [doc])
    else
      Except.ok ((session_id, doc.progress), [])

/-- Python `random.randint(a, b)` (both ends inclusive), fed one stream
value `n`. -/
def randint (a b n : Nat) : Nat := a + n % (b - a + 1)

/-- The question part of the GET /api/text/question response
(src/main.py lines 129-133): the drawn question without its ideal
answer. -/
structure QuestionOut where
  id : String
  text : String
  difficulty : String
deriving Repr, DecidableEq

/-- `get_text_question(session_id, difficulty)` from src/main.py
lines 125-135: draws via `_pick_question(difficulty or "Mixed")`
(consuming stream positions `pos .. pos+10`) and reports a random
progress snapshot via `random.randint(1, 5)` (stream position
`pos+11`). -/
def get_text_question (session_id : String) (difficulty : Option String)
    (stream : Nat → Nat) (pos : Nat) : QuestionOut × Progress :=
  let q := _pick_question (difficulty.getD "Mixed") stream pos
  ({ id := q.id, text := q.text, difficulty := q.difficulty },
   { current := randint 1 5 (stream (pos + 11)), total := 5 })

/-! Helper lemmas. -/

/-- The feedback half of `submit_text_answer`, written out. -/
lemma submit_feedback_eq (dbPresent : Bool) (p : TextAnswer) :
    (submit_text_answer dbPresent p).1 =
      { correct := decide (60 < max 30 (min 100 ((pyStrip p.answer).length / 5 + 40))),
        grammar_fixes := "Capitalize proper nouns. Keep sentences concise.",
        content_score := max 30 (min 100 ((pyStrip p.answer).length / 5 + 40)),
        correct_answer := "Sample ideal answer with structured points and examples.",
        next_available := true } := rfl

/-- Anything `List.getD` returns is a member of the list or the default. -/
lemma getD_mem_or_eq {α : Type} (l : List α) (i : Nat) (d : α) :
    l.getD i d ∈ l ∨ l.getD i d = d := by
  by_cases h : i < l.length
  · rw [List.getD_eq_getElem l d h]
    exact Or.inl (l.getElem_mem h)
  · rw [List.getD_eq_default l d (Nat.le_of_not_lt h)]
    exact Or.inr rfl

end MockInterview

namespace MockInterview

/-- C1: For every submitted answer, `submit_text_answer` scores the trimmed
length L as `clamp(L / 5 + 40, 30, 100)` with integer division, sets
`correct` exactly when the score exceeds 60, always sets `next_available`,
and in particular an answer trimming to length 0 gets score 40 and
`correct = false`. -/
theorem submit_text_answer_scoring (dbPresent : Bool) (p : TextAnswer) :
    (submit_text_answer dbPresent p).1.content_score
        = max 30 (min 100 ((pyStrip p.answer).length / 5 + 40)) ∧
    ((submit_text_answer dbPresent p).1.correct = true ↔
        60 < (submit_text_answer dbPresent p).1.content_score) ∧
    (submit_text_answer dbPresent p).1.next_available = true ∧
    ((pyStrip p.answer).length = 0 →
        (submit_text_answer dbPresent p).1.content_score = 40 ∧
        (submit_text_answer dbPresent p).1.correct = false) := by
  refine ⟨rfl, decide_eq_true_iff, rfl, fun h => ?_⟩
  rw [submit_feedback_eq, h]
  exact ⟨by norm_num, by norm_num⟩

theorem submit_text_answer_scoring_witness :
    (submit_text_answer true ⟨"s", "q", "   "⟩).1.content_score = 40 ∧
    (submit_text_answer true ⟨"s", "q", "   "⟩).1.correct = false :=
  (submit_text_answer_scoring true ⟨"s", "q", "   "⟩).2.2.2 (by decide)

/-- C10: the content score is always at least 40, and the lower clamp at 30
is never binding: the score is exactly `min 100 (L / 5 + 40)`. -/
theorem content_score_at_least_forty (dbPresent : Bool) (p : TextAnswer) :
    40 ≤ (submit_text_answer dbPresent p).1.content_score ∧
    (submit_text_answer dbPresent p).1.content_score
        = min 100 ((pyStrip p.answer).length / 5 + 40) := by
  have h40 : 40 ≤ min 100 ((pyStrip p.answer).length / 5 + 40) :=
    le_min (by norm_num) (Nat.le_add_left 40 _)
  rw [submit_feedback_eq]
  exact ⟨le_trans h40 (le_max_right _ _),
         max_eq_right (le_trans (by norm_num) h40)⟩

/-- C8: the content score always lies in [30, 100] and is monotone
non-decreasing in the trimmed answer length. -/
theorem content_score_bounds_and_monotone (dbPresent : Bool) (p q : TextAnswer)
    (h : (pyStrip p.answer).length ≤ (pyStrip q.answer).length) :
    30 ≤ (submit_text_answer dbPresent p).1.content_score ∧
    (submit_text_answer dbPresent p).1.content_score ≤ 100 ∧
    (submit_text_answer dbPresent p).1.content_score
        ≤ (submit_text_answer dbPresent q).1.content_score := by
  rw [submit_feedback_eq, submit_feedback_eq]
  refine ⟨le_max_left _ _, max_le (by norm_num) (min_le_left _ _), ?_⟩
  exact max_le_max (le_refl 30)
    (min_le_min (le_refl 100)
      (Nat.add_le_add_right (Nat.div_le_div_right h) 40))

theorem content_score_bounds_and_monotone_witness :
    (pyStrip "ab").length ≤ (pyStrip "abcdef").length ∧
    30 ≤ (submit_text_answer true ⟨"s", "q", "ab"⟩).1.content_score ∧
    (submit_text_answer true ⟨"s", "q", "ab"⟩).1.content_score ≤ 100 ∧
    (submit_text_answer true ⟨"s", "q", "ab"⟩).1.content_score
        ≤ (submit_text_answer true ⟨"s", "q", "abcdef"⟩).1.content_score :=
  ⟨by decide, content_score_bounds_and_monotone true ⟨"s", "q", "ab"⟩ ⟨"s", "q", "abcdef"⟩ (by decide)⟩

/-- C4 counterexample: an answer of 101 non-whitespace characters has
trimmed length greater than 100, yet its score is exactly 60 and
`correct = false` (the claim asserts `correct = true` for all L > 100). -/
theorem submit_text_answer_101_not_correct :
    100 < (pyStrip (String.mk (List.replicate 101 'a'))).length ∧
    (submit_text_answer true
        ⟨"s", "q", String.mk (List.replicate 101 'a')⟩).1.content_score = 60 ∧
    (submit_text_answer true
        ⟨"s", "q", String.mk (List.replicate 101 'a')⟩).1.correct = false := by
  refine ⟨by decide, by decide, by decide⟩

/-- C4 amended: for every answer whose trimmed length is at least 105
(equivalently, whose trimmed length L satisfies L / 5 + 40 > 60),
`submit_text_answer` reports `correct = true`. -/
theorem submit_text_answer_long_correct (dbPresent : Bool) (p : TextAnswer)
    (h : 105 ≤ (pyStrip p.answer).length) :
    (submit_text_answer dbPresent p).1.correct = true := by
  have h21 : 21 ≤ (pyStrip p.answer).length / 5 :=
    (Nat.le_div_iff_mul_le (by norm_num)).mpr (by omega)
  have hx : 61 ≤ min 100 ((pyStrip p.answer).length / 5 + 40) :=
    le_min (by norm_num) (by omega)
  rw [submit_feedback_eq]
  exact decide_eq_true (lt_of_lt_of_le (by norm_num)
    (le_trans hx (le_max_right _ _)))

theorem submit_text_answer_long_correct_witness :
    105 ≤ (pyStrip (String.mk (List.replicate 105 'a'))).length ∧
    (submit_text_answer true
        ⟨"s", "q", String.mk (List.replicate 105 'a')⟩).1.correct = true :=
  ⟨by decide,
   submit_text_answer_long_correct true
     ⟨"s", "q", String.mk (List.replicate 105 'a')⟩ (by decide)⟩

/-- The difficulty of a drawn question is the tag of the chosen pool
entry. -/
lemma pick_question_difficulty_proj (d : String) (stream : Nat → Nat) (pos : Nat) :
    (_pick_question d stream pos).difficulty
      = ((pickPool2 d).getD (stream pos % (pickPool2 d).length)
          (fallbackEntry d)).2.2 := rfl

/-- For a non-Mixed difficulty, every entry of the (fallback-completed)
pool is tagged with the requested difficulty itself. -/
lemma mem_pickPool2_of_ne {d : String} {x : String × String × String}
    (hd : ¬ d = "Mixed") (hx : x ∈ pickPool2 d) : x.2.2 = d := by
  unfold pickPool2 at hx
  split at hx
  · rw [List.mem_singleton.mp hx]
    rfl
  · unfold pickPool at hx
    rw [if_neg hd] at hx
    rcases List.mem_map.mp hx with ⟨p, _, rfl⟩
    rfl

/-- For any non-Mixed difficulty (known or unknown), the drawn question is
tagged with the requested difficulty. -/
lemma pick_question_difficulty_of_ne (d : String) (stream : Nat → Nat) (pos : Nat)
    (hd : ¬ d = "Mixed") : (_pick_question d stream pos).difficulty = d := by
  rw [pick_question_difficulty_proj]
  rcases getD_mem_or_eq (pickPool2 d) (stream pos % (pickPool2 d).length)
      (fallbackEntry d) with h | h
  · exact mem_pickPool2_of_ne hd h
  · rw [h]
    rfl

/-- Every entry of the Mixed pool is tagged Easy, Intermediate or
Advanced. -/
lemma mem_pickPool2_mixed : ∀ x ∈ pickPool2 "Mixed",
    x.2.2 = "Easy" ∨ x.2.2 = "Intermediate" ∨ x.2.2 = "Advanced" := by decide

/-- C2: a draw with difficulty Easy, Intermediate or Advanced returns a
question tagged with exactly that difficulty, and a Mixed draw returns a
question tagged with one of the three concrete levels (Mixed itself is
never a tag: it is expanded to the union of the three pools). -/
theorem pick_question_difficulty_matches (stream stream2 : Nat → Nat)
    (pos pos2 : Nat) (d : String)
    (h : d ∈ (["Easy", "Intermediate", "Advanced"] : List String)) :
    (_pick_question d stream pos).difficulty = d ∧
    (_pick_question "Mixed" stream2 pos2).difficulty
        ∈ (["Easy", "Intermediate", "Advanced"] : List String) := by
  constructor
  · refine pick_question_difficulty_of_ne d stream pos fun hM => ?_
    rw [hM] at h
    exact absurd h (by decide)
  · rw [pick_question_difficulty_proj]
    have hlt : stream2 pos2 % (pickPool2 "Mixed").length
        < (pickPool2 "Mixed").length := by
      have hlen : (pickPool2 "Mixed").length = 6 := by decide
      rw [hlen]
      exact Nat.mod_lt _ (by norm_num)
    rw [List.getD_eq_getElem _ _ hlt]
    have := mem_pickPool2_mixed _ ((pickPool2 "Mixed").getElem_mem hlt)
    simpa using this

theorem pick_question_difficulty_matches_witness :
    (_pick_question "Easy" (fun _ => 0) 0).difficulty = "Easy" ∧
    (_pick_question "Mixed" (fun _ => 0) 0).difficulty
        ∈ (["Easy", "Intermediate", "Advanced"] : List String) :=
  pick_question_difficulty_matches (fun _ => 0) (fun _ => 0) 0 0 "Easy" (by decide)

/-- Dict lookup misses for any key other than the three stored levels. -/
lemma bankGet_eq_nil {d : String} (h1 : ¬ "Easy" = d) (h2 : ¬ "Intermediate" = d)
    (h3 : ¬ "Advanced" = d) : bankGet d = [] := by
  unfold bankGet QUESTIONS_BANK
  simp [h1, h2, h3]

/-- C5: a draw with a label outside Easy/Intermediate/Advanced/Mixed never
fails: it returns exactly the generic fallback question, tagged with the
originally requested unknown label. -/
theorem pick_question_unknown_fallback (d : String) (stream : Nat → Nat) (pos : Nat)
    (h1 : d ≠ "Easy") (h2 : d ≠ "Intermediate") (h3 : d ≠ "Advanced")
    (h4 : d ≠ "Mixed") :
    _pick_question d stream pos =
      { id := _make_id "q" stream (pos + 1),
        text := "Tell me about yourself.",
        difficulty := d,
        correct_answer :=
          "Give a concise summary of your background, achievements, and goals." } := by
  have hnil : bankGet d = [] :=
    bankGet_eq_nil (fun h => h1 h.symm) (fun h => h2 h.symm) (fun h => h3 h.symm)
  have hpool : pickPool d = [] := by
    unfold pickPool
    rw [if_neg h4, hnil]
    rfl
  have hpool2 : pickPool2 d = [fallbackEntry d] := by
    unfold pickPool2
    rw [hpool]
    rfl
  unfold _pick_question
  rw [hpool2]
  simp [fallbackEntry]

theorem pick_question_unknown_fallback_witness :
    _pick_question "Hard" (fun _ => 0) 0 =
      { id := _make_id "q" (fun _ => 0) 1,
        text := "Tell me about yourself.",
        difficulty := "Hard",
        correct_answer :=
          "Give a concise summary of your background, achievements, and goals." } :=
  pick_question_unknown_fallback "Hard" (fun _ => 0) 0
    (by decide) (by decide) (by decide) (by decide)

/-- C9 counterexample: with a randomness stream that yields the same
suffix characters on both draws (a possible random outcome), two
consecutive draws with the same difficulty return the very same
identifier, so identifiers are not always distinct across draws. -/
theorem pick_question_id_reused :
    (_pick_question "Easy" (fun _ => 0) 0).id
      = (_pick_question "Easy" (fun _ => 0) 11).id := by decide

/-- C9 amended: identifiers are freshly generated on every draw from the
draw's own random characters, and two consecutive draws produce distinct
identifiers whenever their drawn 10-character suffixes differ (only a
random suffix collision can make them coincide). -/
theorem pick_question_ids_fresh (d1 d2 : String) (stream : Nat → Nat)
    (h : idSuffix stream 1 ≠ idSuffix stream 12) :
    (_pick_question d1 stream 0).id ≠ (_pick_question d2 stream 11).id := by
  intro he
  have he' : "q" ++ "_" ++ String.mk (idSuffix stream 1)
      = "q" ++ "_" ++ String.mk (idSuffix stream 12) := he
  have hd := congrArg String.data he'
  simp only [String.data_append] at hd
  exact h (List.append_cancel_left hd)

theorem pick_question_ids_fresh_witness :
    idSuffix (fun n => n) 1 ≠ idSuffix (fun n => n) 12 ∧
    (_pick_question "Easy" (fun n => n) 0).id
      ≠ (_pick_question "Easy" (fun n => n) 11).id :=
  ⟨by decide, pick_question_ids_fresh "Easy" "Easy" (fun n => n) (by decide)⟩

/-- The session document built for a valid request. -/
def sessionDocOf (r : SessionCreate) (sid : String) : SessionDoc :=
  { _id := sid,
    mode := r.mode,
    job_role := r.job_role,
    experience := r.experience,
    company := r.company,
    difficulty := r.difficulty,
    resume_text := r.resume_text,
    paid := true,
    progress := { current := 0, total := 5 } }

/-- A valid request passes validation and the route returns the fixed
response shape, persisting exactly when the store is present. -/
lemma create_session_of_valid (dbPresent : Bool) (r : SessionCreate)
    (stream : Nat → Nat) (pos : Nat)
    (hm : r.mode ∈ validModes) (hd : r.difficulty ∈ validDifficulties) :
    create_session dbPresent r stream pos =
      Except.ok ((_make_id "sess" stream pos, { current := 0, total := 5 }),
        if dbPresent then [sessionDocOf r (_make_id "sess" stream pos)] else []) := by
  unfold create_session validateSessionCreate
  rw [if_pos hm, if_pos hd]
  cases dbPresent <;> rfl

/-- An invalid mode or difficulty is rejected by validation. -/
lemma create_session_of_invalid (dbPresent : Bool) (r : SessionCreate)
    (stream : Nat → Nat) (pos : Nat)
    (h : ¬ (r.mode ∈ validModes ∧ r.difficulty ∈ validDifficulties)) :
    ∃ e, create_session dbPresent r stream pos = Except.error e := by
  unfold create_session validateSessionCreate
  by_cases hm : r.mode ∈ validModes
  · have hd : ¬ r.difficulty ∈ validDifficulties := fun hdd => h ⟨hm, hdd⟩
    rw [if_pos hm, if_neg hd]
    exact ⟨_, rfl⟩
  · rw [if_neg hm]
    exact ⟨_, rfl⟩

/-- C3: `create_session` rejects any request whose mode is outside
\x7btext, voice\x7d or whose difficulty is outside
\x7bEasy, Intermediate, Advanced, Mixed\x7d as a validation error; a valid
request is never coerced (the stored document keeps the request's fields
verbatim) and yields a session id together with progress
\x7bcurrent := 0, total := 5\x7d. -/
theorem create_session_validates (dbPresent : Bool) (r : SessionCreate)
    (stream : Nat → Nat) (pos : Nat) :
    (¬ (r.mode ∈ validModes ∧ r.difficulty ∈ validDifficulties) →
        ∃ e, create_session dbPresent r stream pos = Except.error e) ∧
    (r.mode ∈ validModes → r.difficulty ∈ validDifficulties →
        create_session dbPresent r stream pos =
          Except.ok ((_make_id "sess" stream pos, { current := 0, total := 5 }),
            if dbPresent then [sessionDocOf r (_make_id "sess" stream pos)]
            else [])) :=
  ⟨create_session_of_invalid dbPresent r stream pos,
   fun hm hd => create_session_of_valid dbPresent r stream pos hm hd⟩

theorem create_session_validates_witness :
    (∃ e, create_session true ⟨"video", "Backend", "2 years", none, "Easy", none⟩
        (fun _ => 0) 0 = Except.error e) ∧
    (∃ e, create_session true ⟨"text", "Backend", "2 years", none, "Hard", none⟩
        (fun _ => 0) 0 = Except.error e) ∧
    create_session false ⟨"text", "Backend", "2 years", none, "Easy", none⟩
        (fun _ => 0) 0 =
      Except.ok ((_make_id "sess" (fun _ => 0) 0, { current := 0, total := 5 }), []) :=
  ⟨(create_session_validates true ⟨"video", "Backend", "2 years", none, "Easy", none⟩
      (fun _ => 0) 0).1 (by decide),
   (create_session_validates true ⟨"text", "Backend", "2 years", none, "Hard", none⟩
      (fun _ => 0) 0).1 (by decide),
   (create_session_validates false ⟨"text", "Backend", "2 years", none, "Easy", none⟩
      (fun _ => 0) 0).2 (by decide) (by decide)⟩

/-- C6: when the persistence store is absent, `create_session` and
`submit_text_answer` return exactly the response they return when the
store is present, and persist nothing. -/
theorem store_absence_same_results (r : SessionCreate) (stream : Nat → Nat)
    (pos : Nat) (p : TextAnswer) :
    create_session false r stream pos
        = (create_session true r stream pos).map
            (fun x => (x.1, ([] : List SessionDoc))) ∧
    submit_text_answer false p
        = ((submit_text_answer true p).1, ([] : List ResponseDoc)) := by
  constructor
  · unfold create_session
    cases hv : validateSessionCreate r <;> rfl
  · rfl

/-- Any successful `create_session` result carries progress
\x7bcurrent := 0, total := 5\x7d. -/
lemma create_session_ok_progress {dbPresent : Bool} {r : SessionCreate}
    {stream : Nat → Nat} {pos : Nat}
    {res : (String × Progress) × List SessionDoc}
    (h : create_session dbPresent r stream pos = Except.ok res) :
    res.1.2 = { current := 0, total := 5 } := by
  by_cases hv : r.mode ∈ validModes ∧ r.difficulty ∈ validDifficulties
  · rw [create_session_of_valid dbPresent r stream pos hv.1 hv.2] at h
    injection h with h2
    rw [← h2]
  · rcases create_session_of_invalid dbPresent r stream pos hv with ⟨e, he⟩
    rw [he] at h
    exact Except.noConfusion h

/-- C7: progress never exceeds its total of 5: every successful
`create_session` reports progress \x7bcurrent := 0, total := 5\x7d, and
every `get_text_question` reports total 5 with current in [1, 5]. -/
theorem progress_within_total (dbPresent : Bool) (r : SessionCreate)
    (stream : Nat → Nat) (pos : Nat) (sid : String) (diff : Option String)
    (stream2 : Nat → Nat) (pos2 : Nat) :
    (∀ res, create_session dbPresent r stream pos = Except.ok res →
        res.1.2 = { current := 0, total := 5 } ∧
        res.1.2.current ≤ res.1.2.total) ∧
    (get_text_question sid diff stream2 pos2).2.total = 5 ∧
    1 ≤ (get_text_question sid diff stream2 pos2).2.current ∧
    (get_text_question sid diff stream2 pos2).2.current ≤ 5 := by
  refine ⟨fun res h => ?_, rfl, ?_, ?_⟩
  · have hp := create_session_ok_progress h
    refine ⟨hp, ?_⟩
    rw [hp]
    norm_num
  · exact Nat.le_add_right 1 _
  · show 1 + stream2 (pos2 + 11) % (5 - 1 + 1) ≤ 5
    have := Nat.mod_lt (stream2 (pos2 + 11)) (show 0 < 5 - 1 + 1 by norm_num)
    omega

theorem progress_within_total_witness :
    (((_make_id "sess" (fun _ => 0) 0, ({ current := 0, total := 5 } : Progress)),
        ([] : List SessionDoc)).1.2 = { current := 0, total := 5 } ∧
      ((_make_id "sess" (fun _ => 0) 0, ({ current := 0, total := 5 } : Progress)),
        ([] : List SessionDoc)).1.2.current
        ≤ ((_make_id "sess" (fun _ => 0) 0, ({ current := 0, total := 5 } : Progress)),
            ([] : List SessionDoc)).1.2.total) ∧
    (get_text_question "s" none (fun _ => 0) 0).2.total = 5 ∧
    1 ≤ (get_text_question "s" none (fun _ => 0) 0).2.current ∧
    (get_text_question "s" none (fun _ => 0) 0).2.current ≤ 5 := by
  have T := progress_within_total false
      ⟨"text", "Backend", "2 years", none, "Easy", none⟩ (fun _ => 0) 0
      "s" none (fun _ => 0) 0
  exact ⟨T.1 _ rfl, T.2.1, T.2.2.1, T.2.2.2⟩

end MockInterview
